import Mathlib

/-!
Verification of the AbitaLab quotation generator (`src/main.py`).

Python floats are modelled as rationals (ℚ); Python's `round(x, 2)` and the
`:.2f` / `:,.2f` format specifiers round half-to-even, modelled exactly on ℚ.
Optional Python fields become `Option`; `str` becomes `String`.
-/

attribute [local semireducible] Rat.mul Rat.add Rat.inv Rat.sub Rat.ofScientific

/-- Floor of a rational as an integer (`num.fdiv den`, exact since `den > 0`). -/
def qfloor (q : ℚ) : ℤ := Int.fdiv q.num (q.den : ℤ)

/-- Round a rational to the nearest integer, ties to even (Python `round`). -/
def rhe (q : ℚ) : ℤ :=
  let f := qfloor q
  let r := q - (f : ℚ)
  if r < 1 / 2 then f
  else if 1 / 2 < r then f + 1
  else if f % 2 = 0 then f else f + 1

/-- Python `round(x, 2)`: round half-even at two decimal places. -/
def round2 (x : ℚ) : ℚ := (rhe (100 * x) : ℚ) / 100

/-- Lower-case a character list (`str.lower` on the ASCII letters used here). -/
def lowerList (l : List Char) : List Char := l.map Char.toLower

/-- Predicate `isPrefixL needle l` decides whether `needle` starts `l`. -/
def isPrefixL : List Char → List Char → Bool
  | [], _ => true
  | _ :: _, [] => false
  | a :: as, b :: bs => a == b && isPrefixL as bs

/-- Python's `needle in hay` substring test on character lists. -/
def containsSub (needle : List Char) : List Char → Bool
  | [] => isPrefixL needle []
  | c :: rest => isPrefixL needle (c :: rest) || containsSub needle (rest)

/-- The test `voce.um and needle in voce.um.lower()` from `calcola_totale_voce`:
an absent or empty unit-of-measure is falsy, otherwise substring match on the
lower-cased text. -/
def umHas (um : Option String) (needle : String) : Bool :=
  match um with
  | none => false
  | some s => !s.isEmpty && containsSub needle.toList (lowerList s.toList)

/-- Structure `VocePreventivo`: one line item (all fields but the description optional). -/
structure VocePreventivo where
  descrizione : String
  pz : Option ℤ := none
  qta : Option ℚ := none
  um : Option String := none
  prezzo : Option ℚ := none
deriving DecidableEq

/-- Structure `Posizione`: a numbered group of line items. -/
structure Posizione where
  numero : ℤ
  voci : List VocePreventivo
deriving DecidableEq

/-- Structure `DatiCliente`: client identity. -/
structure DatiCliente where
  nome : String
  indirizzo : String
  citta : String
  cantiere : String
deriving DecidableEq

/-- Structure `DatiAzienda`: issuer identity with the source's default values. -/
structure DatiAzienda where
  nome : String := "AbitaLab"
  indirizzo : String := "Via dell\x27Innovazione, 1"
  cap_citta : String := "20121 Milano (MI)"
  p_iva : String := "P.Iva: 12345678901"
  telefono : String := "Tel. 02 12345678"
  email : String := "Mail: info@abitalab.it"
  sito : String := "Sito: www.abitalab.it"
deriving DecidableEq

/-- Structure `Preventivo`: the aggregate quotation record. -/
structure Preventivo where
  numero : String
  data : String
  cliente : DatiCliente
  azienda : DatiAzienda := {}
  posizioni : List Posizione
  iva_percentuale : ℚ := 22
deriving DecidableEq

/-- Function `calcola_totale_voce` (src/main.py lines 78-107): the pricing rule for one
line item.  Mirrors the Python `if`/`elif` chain: when a branch is entered but
its inner condition fails, control falls to the final
`return round(voce.prezzo, 2)` fallback. -/
def calcola_totale_voce (voce : VocePreventivo) : ℚ :=
  match voce.prezzo with
  | none => 0
  | some prezzo =>
    if umHas voce.um "pz" then
      match voce.pz with
      | some pz => round2 (prezzo * (pz : ℚ))
      | none => round2 prezzo
    else if umHas voce.um "corpo" then
      round2 prezzo
    else if umHas voce.um "mq" then
      match voce.qta with
      | some qta =>
        if prezzo > 10000 ∧ qta > 10 then
          round2 prezzo
        else
          round2 (prezzo * qta)
      | none => round2 prezzo
    else
      match voce.qta with
      | some qta => round2 (prezzo * qta)
      | none => round2 prezzo

/-- Decimal digits of a natural number, most significant first (fuel-based so
that it is structurally recursive and kernel-evaluable). -/
def natDigitsAux : ℕ → ℕ → List Char
  | 0, _ => []
  | fuel + 1, n => if n = 0 then [] else natDigitsAux fuel (n / 10) ++ [Nat.digitChar (n % 10)]

/-- Decimal digit string of a natural number (`"0"` for zero). -/
def natDigits (n : ℕ) : List Char :=
  if n = 0 then ['0'] else natDigitsAux (n + 1) n

/-- Insert `sep` every three characters, walking a reversed digit list. -/
def group3rev (sep : Char) : List Char → List Char
  | a :: b :: c :: d :: rest => a :: b :: c :: sep :: group3rev sep (d :: rest)
  | l => l

/-- Group a digit list in threes from the right with separator `sep`
(the thousands grouping of Python's `,` format flag). -/
def groupDigits (sep : Char) (ds : List Char) : List Char :=
  (group3rev sep ds.reverse).reverse

/-- Exactly two decimal digits for `n < 100` (the cents field). -/
def twoDigits (n : ℕ) : List Char :=
  [Nat.digitChar (n / 10), Nat.digitChar (n % 10)]

/-- Python `f"{v:,.2f}"`: half-even rounding to two decimals, `,` as the
thousands separator, `.` as the decimal point. -/
def usFormat (v : ℚ) : List Char :=
  (if rhe (100 * v) < 0 then ['-'] else []) ++
    groupDigits ',' (natDigits ((rhe (100 * v)).natAbs / 100)) ++
    '.' :: twoDigits ((rhe (100 * v)).natAbs % 100)

/-- Python `str.replace` with a one-character pattern and replacement. -/
def replaceChar (a b : Char) (l : List Char) : List Char :=
  l.map fun c => if c == a then b else c

/-- Function `formatta_euro` (src/main.py lines 109-111): US-style `:,.2f` format,
then the three `replace` calls swapping `,` and `.` through placeholder `X`,
with the suffix `" €"` present before the swap as in the source. -/
def formatta_euro (v : ℚ) : String :=
  ⟨replaceChar 'X' '.' (replaceChar '.' ',' (replaceChar ',' 'X' (usFormat v ++ " €".toList)))⟩

/-- Modelled from the spec words for the currency format (claim C10): two
decimals, `.` as thousands separator, `,` as decimal separator, euro suffix —
built directly in the Italian convention, to be compared with the source's
swap-based `formatta_euro`. -/
def italianEuroList (v : ℚ) : List Char :=
  (if rhe (100 * v) < 0 then ['-'] else []) ++
    groupDigits '.' (natDigits ((rhe (100 * v)).natAbs / 100)) ++
    ',' :: (twoDigits ((rhe (100 * v)).natAbs % 100) ++ " €".toList)

/-- String form of the spec-side Italian currency format. -/
def italianEuro (v : ℚ) : String := ⟨italianEuroList v⟩

/-- Python `int(v)` for a float: truncation toward zero. -/
def pyInt (v : ℚ) : ℤ := if 0 ≤ v then qfloor v else -qfloor (-v)

/-- Python `f"{v:.2f}"` (no thousands grouping). -/
def usFormatPlain (v : ℚ) : List Char :=
  (if rhe (100 * v) < 0 then ['-'] else []) ++
    natDigits ((rhe (100 * v)).natAbs / 100) ++
    '.' :: twoDigits ((rhe (100 * v)).natAbs % 100)

/-- Function `formatta_numero` (src/main.py lines 113-118): integral values without
decimals, otherwise `:.2f` with `,` as decimal point. -/
def formatta_numero (v : ℚ) : String :=
  if v = (pyInt v : ℚ) then toString (pyInt v)
  else ⟨replaceChar '.' ',' (usFormatPlain v)⟩

/-- Function `formatta_prezzo_e_um` (src/main.py lines 120-128). -/
def formatta_prezzo_e_um (voce : VocePreventivo) : String × String :=
  match voce.prezzo with
  | none => ("", voce.um.getD "")
  | some prezzo => (formatta_euro prezzo, voce.um.getD "")

/-- Position total (src/main.py lines 270-277): running sum of the line totals,
starting from `0`. -/
def totale_posizione (pos : Posizione) : ℚ :=
  pos.voci.foldl (fun acc voce => acc + calcola_totale_voce voce) 0

/-- Accumulator `subtotale_merce` (src/main.py lines 265, 297): running sum of the position
totals over the whole quotation. -/
def subtotale_merce (p : Preventivo) : ℚ :=
  p.posizioni.foldl (fun acc pos => acc + totale_posizione pos) 0

/-- Subtotal `imponibile` (src/main.py line 343). -/
def imponibile (p : Preventivo) : ℚ := subtotale_merce p

/-- Tax amount `iva` (src/main.py line 344): the tax amount, computed with no rounding. -/
def iva (p : Preventivo) : ℚ := imponibile p * (p.iva_percentuale / 100)

/-- Grand total `totale_finale` (src/main.py line 345): grand total, subtotal plus the
unrounded tax amount. -/
def totale_finale (p : Preventivo) : ℚ := imponibile p + iva p

/-- Modelled from the spec words of claim C4: grand total as subtotal plus the
tax amount rounded to two decimals, to be compared with the source's
`totale_finale`. -/
def totale_finale_spec (p : Preventivo) : ℚ := imponibile p + round2 (iva p)

/-- Argument of a table-style command (colors and alignment flags kept as
opaque tags, numbers as rationals). -/
inductive TSArg where
  | num (q : ℚ)
  | str (s : String)
  | color (name : String)
deriving DecidableEq

/-- One table-style command tuple `(OP, (startCol, startRow), (stopCol,
stopRow), args...)`; negative coordinates count from the end as in the
source. -/
structure TableCmd where
  op : String
  first : ℤ × ℤ
  last : ℤ × ℤ
  args : List TSArg
deriving DecidableEq

/-- Style command list built for one position's table (src/main.py lines
315-337).  The entry for the position-label span is literally
`('SPAN', (0, 1), (0, -2)) if len(pos.voci) > 1 else None`, so the list is a
list of *optional* commands and a single-line position contributes a `none`
placeholder. -/
def stile_tabella_posizione (numVoci : ℕ) : List (Option TableCmd) :=
  [some ⟨"BACKGROUND", (0, 0), (-1, 0), [.color "#003366"]⟩,
   some ⟨"TEXTCOLOR", (0, 0), (-1, 0), [.color "whitesmoke"]⟩,
   some ⟨"FONTNAME", (0, 0), (-1, 0), [.str "Helvetica-Bold"]⟩,
   some ⟨"FONTSIZE", (0, 0), (-1, -1), [.num 8]⟩,
   some ⟨"ALIGN", (0, 0), (-1, 0), [.str "CENTER"]⟩,
   some ⟨"VALIGN", (0, 0), (-1, -1), [.str "TOP"]⟩,
   some ⟨"ALIGN", (2, 1), (4, -1), [.str "CENTER"]⟩,
   some ⟨"ALIGN", (5, 1), (-1, -1), [.str "RIGHT"]⟩,
   some ⟨"BOX", (0, 0), (-1, -1), [.num 1, .color "black"]⟩,
   some ⟨"INNERGRID", (0, 0), (-1, -1), [.num 0.25, .color "black"]⟩,
   if numVoci > 1 then some ⟨"SPAN", (0, 1), (0, -2), []⟩ else none,
   some ⟨"SPAN", (1, -1), (5, -1), []⟩,
   some ⟨"LINEABOVE", (0, -1), (-1, -1), [.num 1, .color "black"]⟩]

/-- Equality of `Except` results is decidable when both components are. -/
instance {ε α : Type} [DecidableEq ε] [DecidableEq α] : DecidableEq (Except ε α) := fun x y =>
  match x, y with
  | .ok a, .ok b => if h : a = b then .isTrue (by rw [h]) else .isFalse (by simp [h])
  | .error a, .error b => if h : a = b then .isTrue (by rw [h]) else .isFalse (by simp [h])
  | .ok _, .error _ => .isFalse (by simp)
  | .error _, .ok _ => .isFalse (by simp)

/-- Modelled from the table-style contract of the PDF library (external to
src/): applying a style list dispatches on each command tuple's opcode in
order, so a `none` placeholder — which has no opcode — makes the whole
application fail; otherwise every command is accepted in order. -/
def setStyleCommands : List (Option TableCmd) → Except String (List TableCmd)
  | [] => .ok []
  | none :: _ => .error "TypeError: NoneType object is not subscriptable"
  | some c :: rest => (setStyleCommands rest).map (c :: ·)

/-- Resolution of a possibly negative row or column coordinate against the
actual row or column count, as done by the PDF library's table machinery. -/
def resolveIndex (count : ℕ) (i : ℤ) : ℤ :=
  if i < 0 then (count : ℤ) + i else i

/-- One reportlab `cm` in points (72 / 2.54), as an exact rational. -/
def cmQ : ℚ := 7200 / 254

/-- Drawing operation recorded on a canvas page. -/
inductive DrawOp where
  | content (s : String)
  | setFont (font : String) (size : ℕ)
  | drawRightString (x y : ℚ) (text : String)
deriving DecidableEq

/-- State of the page-numbering canvas: the base canvas state (current page
number starting at 1, the accumulated drawing code of the current page, and
the pages physically emitted into the document so far) plus the `pages` list
of snapshots recorded by the overridden `showPage`. -/
structure CanvasState where
  pageNumber : ℕ
  code : List DrawOp
  emitted : List (List DrawOp)
  pages : List (ℕ × List DrawOp)
deriving DecidableEq

/-- Fresh canvas: page number 1, nothing drawn, emitted or recorded. -/
def initCanvas : CanvasState := ⟨1, [], [], []⟩

/-- Record a drawing operation on the current page. -/
def drawOp (op : DrawOp) (s : CanvasState) : CanvasState :=
  { s with code := s.code ++ [op] }

/-- Base-class `showPage` (the PDF library's canvas): physically emit the
current page into the document, then start a new page (`_startPage` resets
the page code and increments the page number). -/
def base_showPage (s : CanvasState) : CanvasState :=
  { s with emitted := s.emitted ++ [s.code],
           pageNumber := s.pageNumber + 1,
           code := [] }

/-- Method `PageNumCanvas.showPage` (src/main.py lines 138-140): record a snapshot of
the drawing state instead of emitting, then start a new page. -/
def pnc_showPage (s : CanvasState) : CanvasState :=
  { s with pages := s.pages ++ [(s.pageNumber, s.code)],
           pageNumber := s.pageNumber + 1,
           code := [] }

/-- Operations produced by `draw_page_number` (src/main.py lines 150-152):
set Helvetica 8 and draw `"Pagina X di N"` right-aligned at (20cm, 1cm). -/
def stampOps (pageNumber count : ℕ) : List DrawOp :=
  [.setFont "Helvetica" 8,
   .drawRightString (20 * cmQ) cmQ
     ("Pagina " ++ toString pageNumber ++ " di " ++ toString count)]

/-- Method `PageNumCanvas.draw_page_number` applied to the current state. -/
def draw_page_number (count : ℕ) (s : CanvasState) : CanvasState :=
  { s with code := s.code ++ stampOps s.pageNumber count }

/-- Method `PageNumCanvas.save` (src/main.py lines 142-148): with the total page
count now known, replay every recorded snapshot (restoring its page number
and drawing code), stamp its page number, and emit it through the base-class
`showPage`. -/
def pnc_save (s : CanvasState) : CanvasState :=
  let count := s.pages.length
  s.pages.foldl
    (fun st pg =>
      base_showPage (draw_page_number count { st with pageNumber := pg.1, code := pg.2 }))
    s

/-- One step of content layout seen by the canvas: a drawing operation, or a
page boundary (a `showPage` call from the document builder). -/
inductive LayoutEvent where
  | draw (op : DrawOp)
  | newPage
deriving DecidableEq

/-- Apply one layout event to the page-numbering canvas. -/
def layoutStep (s : CanvasState) : LayoutEvent → CanvasState
  | .draw op => drawOp op s
  | .newPage => pnc_showPage s

/-- Run a whole layout (as `doc.build` does) on a fresh page-numbering
canvas; `save` is not yet called. -/
def runLayout (evs : List LayoutEvent) : CanvasState :=
  evs.foldl layoutStep initCanvas

/-- Outcome of the logo fetch: an HTTP response with a status code and body,
or a raised exception (network error, timeout). -/
inductive FetchOutcome where
  | ok (statusCode : ℕ) (content : List ℕ)
  | exn (msg : String)
deriving DecidableEq

/-- Whether the fetch outcome is a success with status 200. -/
def fetchSuccess : FetchOutcome → Bool
  | .ok statusCode _ => statusCode == 200
  | .exn _ => false

/-- Reference to a paragraph style: a stylesheet entry by name, or an inline
style with its font size and alignment. -/
inductive PStyleRef where
  | named (name : String)
  | inlineStyle (name : String) (fontSize : Option ℕ) (alignment : Option String)
deriving DecidableEq

/-- Content of one table cell as used in the source: a bare string, a
paragraph, an image, or a stacked list of paragraphs. -/
inductive Cell where
  | str (s : String)
  | para (text : String) (style : PStyleRef)
  | image (content : List ℕ) (width height : ℚ) (hAlign : String)
  | paraList (ps : List (String × PStyleRef))

/-- Flowable document block. -/
inductive Flowable where
  | table (data : List (List Cell)) (colWidths : List ℚ) (repeatRows : ℕ)
      (style : List (Option TableCmd))
  | para (text : String) (style : PStyleRef)
  | spacer (width height : ℚ)
  | pageBreak

/-- Fallback logo element (src/main.py lines 203-206 and 210-213, identical in
both the non-200 branch and the exception handler): the company name in bold,
16pt, centered. -/
def logo_fallback (p : Preventivo) : Cell :=
  .para ("<b>" ++ p.azienda.nome ++ "</b>")
    (.inlineStyle "LogoFallback" (some 16) (some "TA_CENTER"))

/-- Logo element selection (src/main.py lines 193-213): an image on a status
200 response, the text fallback on any other status or any exception. -/
def logo_element (p : Preventivo) : FetchOutcome → Cell
  | .ok statusCode content =>
    if statusCode = 200 then .image content (7 * cmQ) (2 * cmQ) "LEFT"
    else logo_fallback p
  | .exn _ => logo_fallback p

/-- Company identity column of the header (src/main.py lines 215-223). -/
def company_details (p : Preventivo) : Cell :=
  .paraList
    [(p.azienda.nome, .named "CompanyName"),
     (p.azienda.indirizzo, .named "HeaderInfo"),
     (p.azienda.cap_citta, .named "HeaderInfo"),
     (p.azienda.p_iva, .named "HeaderInfo"),
     (p.azienda.telefono, .named "HeaderInfo"),
     (p.azienda.email, .named "HeaderInfo"),
     (p.azienda.sito, .named "HeaderInfo")]

/-- Header table (src/main.py lines 225-231). -/
def header_table (p : Preventivo) (fetch : FetchOutcome) : Flowable :=
  .table [[logo_element p fetch, company_details p]] [7 * cmQ, 11 * cmQ] 0
    [some ⟨"VALIGN", (0, 0), (-1, -1), [.str "TOP"]⟩,
     some ⟨"ALIGN", (0, 0), (0, 0), [.str "LEFT"]⟩,
     some ⟨"LEFTPADDING", (1, 0), (1, 0), [.num 20]⟩,
     some ⟨"RIGHTPADDING", (0, 0), (0, 0), [.num 15]⟩]

/-- Quote-information text block (src/main.py lines 236-240), with the
newline and indentation characters of the Python triple-quoted f-string. -/
def quote_info (p : Preventivo) : String :=
  "\n    Data: " ++ p.data ++ "<br/><br/>\n    <b>Preventivo N. " ++ p.numero ++
    "</b><br/><br/>\n    <b>Cantiere:</b> " ++ p.cliente.cantiere ++ "\n    "

/-- Client text block (src/main.py lines 242-247). -/
def client_info (p : Preventivo) : String :=
  "\n    Spett.le<br/>\n    <b>" ++ p.cliente.nome ++ "</b><br/>\n    " ++
    p.cliente.indirizzo ++ "<br/>\n    " ++ p.cliente.citta ++ "\n    "

/-- Info table (src/main.py lines 249-253). -/
def info_table (p : Preventivo) : Flowable :=
  .table [[.para (quote_info p) (.named "Normal"), .para (client_info p) (.named "Normal")]]
    [9 * cmQ, 9 * cmQ] 0
    [some ⟨"VALIGN", (0, 0), (-1, -1), [.str "TOP"]⟩]

/-- Introductory sentence (src/main.py lines 258-261). -/
def intro_para : Flowable :=
  .para "RingraziandoVi per la gentile richiesta, siamo a sottoporre alla Vostra attenzione la nostra migliore offerta:"
    (.named "Normal")

/-- Piece-count column text: `str(voce.pz)` or the empty string. -/
def pz_str (voce : VocePreventivo) : String :=
  match voce.pz with
  | some n => toString n
  | none => ""

/-- Quantity column text: `formatta_numero(voce.qta)` or the empty string. -/
def qta_str (voce : VocePreventivo) : String :=
  match voce.qta with
  | some q => formatta_numero q
  | none => ""

/-- One line-item row of a position table (src/main.py lines 273-294); only
the first row of the position carries the bold position-number paragraph. -/
def riga_voce (pos : Posizione) (isFirst : Bool) (voce : VocePreventivo) : List Cell :=
  [if isFirst then
     Cell.para ("<b>" ++ toString pos.numero ++ "</b>") (.named "SmallTextCenter")
   else Cell.str "",
   .para voce.descrizione (.named "SmallText"),
   .para (pz_str voce) (.named "SmallTextCenter"),
   .para (qta_str voce) (.named "SmallTextCenter"),
   .para (formatta_prezzo_e_um voce).2 (.named "SmallTextCenter"),
   .para (formatta_prezzo_e_um voce).1 (.named "SmallTextRight"),
   .para (formatta_euro (calcola_totale_voce voce)) (.named "SmallTextRight")]

/-- All line-item rows of a position, in input order. -/
def righe_voci (pos : Posizione) : List (List Cell) :=
  match pos.voci with
  | [] => []
  | v :: vs => riga_voce pos true v :: vs.map (riga_voce pos false)

/-- Header row of every position table (src/main.py line 268). -/
def headersRow : List Cell :=
  [.str "Pos.", .str "Descrizione", .str "Pz", .str "Qtà", .str "U.M.",
   .str "Prezzo", .str "Totale"]

/-- Synthetic trailing totals row of a position table (src/main.py lines
300-306). -/
def riga_totale_posizione (pos : Posizione) : List Cell :=
  [.str "",
   .para "<b>Totale Posizione</b>" (.named "BoldRight"),
   .str "", .str "", .str "", .str "",
   .para ("<b>" ++ formatta_euro (totale_posizione pos) ++ "</b>") (.named "BoldRight")]

/-- Column widths of a position table (src/main.py line 311). -/
def colWidthsPosizione : List ℚ :=
  [1 * cmQ, 8.5 * cmQ, 0.8 * cmQ, 1.2 * cmQ, 1.2 * cmQ, 2.65 * cmQ, 2.65 * cmQ]

/-- One position's table flowable (src/main.py lines 267-313): header row,
line rows, totals row; the header row repeats on page breaks
(`repeatRows=1`). -/
def tabella_posizione (pos : Posizione) : Flowable :=
  .table ([headersRow] ++ righe_voci pos ++ [riga_totale_posizione pos])
    colWidthsPosizione 1 (stile_tabella_posizione pos.voci.length)

/-- Python `f"{v:.0f}"`: half-even rounding to an integer. -/
def format0f (v : ℚ) : String := toString (rhe v)

/-- Totals summary table (src/main.py lines 347-363). -/
def summary_table (p : Preventivo) : Flowable :=
  .table
    [[.para "Imponibile" (.named "TotalsLabel"),
      .para (formatta_euro (imponibile p)) (.named "TotalsValue")],
     [.para ("IVA " ++ format0f p.iva_percentuale ++ "%") (.named "TotalsLabel"),
      .para (formatta_euro (iva p)) (.named "TotalsValue")],
     [.para "<b>Totale Preventivo</b>" (.named "TotalsLabel"),
      .para ("<b>" ++ formatta_euro (totale_finale p) ++ "</b>") (.named "TotalsValue")]]
    [14 * cmQ, 4 * cmQ] 0
    [some ⟨"VALIGN", (0, 0), (-1, -1), [.str "MIDDLE"]⟩,
     some ⟨"LINEBELOW", (0, 0), (-1, 1), [.num 0.5, .color "grey"]⟩,
     some ⟨"LINEABOVE", (0, 2), (-1, 2), [.num 1, .color "black"]⟩,
     some ⟨"BOTTOMPADDING", (0, 0), (-1, -1), [.num 5]⟩,
     some ⟨"TOPPADDING", (0, 0), (-1, -1), [.num 5]⟩]

/-- Signature prompt (src/main.py line 369). -/
def firma_para : Flowable :=
  .para "Timbro e Firma del Cliente per Accettazione" (.named "NormalCenter")

/-- Signature rule line (src/main.py lines 372-376). -/
def signature_line : Flowable :=
  .table [[.str ""]] [8 * cmQ] 0
    [some ⟨"LINEBELOW", (0, 0), (0, 0), [.num 1, .color "black"]⟩,
     some ⟨"ALIGN", (0, 0), (-1, -1), [.str "CENTER"]⟩]

/-- Legal boilerplate blocks (src/main.py lines 381-390). -/
def legal_elements : List Flowable :=
  [.para "Condizioni Generali" (.named "LegalTitle"),
   .para "<b>Validità dell\x27offerta:</b> La presente offerta è valida per 30 giorni dalla data di emissione."
     (.named "LegalBody"),
   .para "<b>Condizioni di pagamento:</b> Le modalità di pagamento saranno concordate in fase di contratto definitivo."
     (.named "LegalBody"),
   .para "<b>Tempi di consegna:</b> I tempi di consegna sono indicativi e verranno confermati al momento dell\x27ordine definitivo."
     (.named "LegalBody"),
   .para "<b>Note:</b> Eventuali opere non esplicitamente menzionate in questo preventivo sono da considerarsi escluse."
     (.named "LegalBody"),
   .spacer 1 cmQ,
   .para "Trattamento dei dati personali" (.named "LegalTitle"),
   .para "Ai sensi del Reg. UE n. 679/2016 (GDPR), i dati personali forniti saranno trattati per le finalità connesse all\x27esecuzione del presente rapporto pre-contrattuale e contrattuale."
     (.named "LegalBody")]

/-- Full element sequence built by `genera_pdf_preventivo` (src/main.py lines
189-391) as a function of the quotation and of the logo-fetch outcome. -/
def genera_pdf_elements (p : Preventivo) (fetch : FetchOutcome) : List Flowable :=
  [header_table p fetch, .spacer 1 cmQ, info_table p, .spacer 1 cmQ,
   intro_para, .spacer 1 (0.5 * cmQ)]
  ++ (p.posizioni.map fun pos => [tabella_posizione pos, Flowable.spacer 1 (0.5 * cmQ)]).flatten
  ++ [summary_table p, .spacer 1 (2 * cmQ), firma_para, .spacer 1 (0.5 * cmQ),
      signature_line, .pageBreak]
  ++ legal_elements

/-- Pointwise action of the first `replace` of `formatta_euro` (`,` to `X`). -/
def r1 (c : Char) : Char := if c == ',' then 'X' else c

/-- Pointwise action of the second `replace` (`.` to `,`). -/
def r2 (c : Char) : Char := if c == '.' then ',' else c

/-- Pointwise action of the third `replace` (`X` to `.`). -/
def r3 (c : Char) : Char := if c == 'X' then '.' else c

/-- Combined pointwise action of the three `replace` calls. -/
def rchar (c : Char) : Char := r3 (r2 (r1 c))

/-- Invariant maintained while the document builder lays out content on the
page-numbering canvas: nothing has been physically emitted, the snapshots are
numbered 1, 2, … in order, and the current page number is one past the
snapshot count. -/
def layoutInv (s : CanvasState) : Prop :=
  s.emitted = [] ∧ s.pageNumber = s.pages.length + 1 ∧
    s.pages.map Prod.fst = List.range' 1 s.pages.length

/-- Quotation used as a concrete input by several witnesses: one position
with the two line items of the spec's end-to-end example. -/
def preventivoDemo : Preventivo :=
  { numero := "1017/2025"
    data := "30/07/2025"
    cliente := ⟨"MARIO ROSSI", "VIA ROMA 123", "20121 Milano (MI)", "VIA ROMA 123"⟩
    posizioni :=
      [⟨1, [⟨"Costruzione base", none, some 300, some "mq", some 800⟩,
            ⟨"Maggiorazione villa", some 1, some 1, some "a corpo", some 50000⟩]⟩] }

/-- Quotation whose subtotal is exactly 100.00 (one price-only line). -/
def preventivoCento : Preventivo :=
  { numero := "1"
    data := "d"
    cliente := ⟨"n", "i", "c", "ca"⟩
    posizioni := [⟨1, [⟨"voce", none, none, none, some 100⟩]⟩] }

/-- Quotation whose subtotal is exactly 0.05, exposing the unrounded tax
amount inside the grand total. -/
def preventivoCentesimi : Preventivo :=
  { numero := "1"
    data := "d"
    cliente := ⟨"n", "i", "c", "ca"⟩
    posizioni := [⟨1, [⟨"voce", none, none, none, some (1 / 20)⟩]⟩] }

/-- Folding `acc + f x` over a list from any seed yields the seed plus the
sum of the mapped values. -/
theorem foldl_add_eq_sum {α : Type} (f : α → ℚ) (l : List α) (a : ℚ) :
    l.foldl (fun acc x => acc + f x) a = a + (l.map f).sum := by
  induction l generalizing a with
  | nil => simp
  | cons x xs ih => simp [ih, add_assoc]

/-- C9: a line item with an absent price has computed total exactly 0,
whatever the other optional fields hold. -/
theorem prezzo_assente_totale_zero (voce : VocePreventivo)
    (h : voce.prezzo = none) : calcola_totale_voce voce = 0 := by
  simp [calcola_totale_voce, h]

/-- Witness for `prezzo_assente_totale_zero` at a line item with every other
optional field present. -/
theorem prezzo_assente_totale_zero_witness :
    calcola_totale_voce ⟨"demo", some 3, some 2, some "mq", none⟩ = 0 :=
  prezzo_assente_totale_zero ⟨"demo", some 3, some 2, some "mq", none⟩ rfl

/-- C1 counterexample: a line item priced 10 with quantity 2, a `pz`
unit-of-measure and an absent piece-count does *not* total
`round(price × quantity, 2) = 20`: the code returns the bare price 10. -/
theorem pz_senza_conteggio_non_moltiplica_qta :
    calcola_totale_voce ⟨"x", none, some 2, some "pz", some 10⟩ ≠ round2 (10 * 2) := by
  decide

/-- C1 amended: when the unit-of-measure contains `pz` but the piece-count is
absent, the code falls through to the *final price-only fallback* — the total
is `round(price, 2)` even when a quantity is present. -/
theorem pz_senza_conteggio_usa_solo_prezzo (voce : VocePreventivo) (pr q : ℚ)
    (hpr : voce.prezzo = some pr) (hum : umHas voce.um "pz" = true)
    (hpz : voce.pz = none) (_hq : voce.qta = some q) :
    calcola_totale_voce voce = round2 pr := by
  simp [calcola_totale_voce, hpr, hum, hpz]

/-- Witness for `pz_senza_conteggio_usa_solo_prezzo`. -/
theorem pz_senza_conteggio_usa_solo_prezzo_witness :
    calcola_totale_voce ⟨"x", none, some 2, some "pz", some 10⟩ = round2 10 :=
  pz_senza_conteggio_usa_solo_prezzo ⟨"x", none, some 2, some "pz", some 10⟩
    10 2 rfl (by decide) rfl rfl

/-- C2: for a present price and quantity and a unit-of-measure containing
`mq` (and neither `pz` nor `corpo`), the heuristic applies: strictly above
10000 in price and strictly above 10 in quantity the price is kept as the
total, otherwise it is multiplied by the quantity; and the claim's concrete
instances, including the strict boundary cases. -/
theorem mq_euristica_prezzo_totale :
    (∀ (voce : VocePreventivo) (pr q : ℚ),
      voce.prezzo = some pr → voce.qta = some q →
      umHas voce.um "mq" = true → umHas voce.um "pz" = false →
      umHas voce.um "corpo" = false →
      calcola_totale_voce voce =
        if pr > 10000 ∧ q > 10 then round2 pr else round2 (pr * q)) ∧
    calcola_totale_voce ⟨"x", none, some 15, some "mq", some 12000⟩ = 12000 ∧
    calcola_totale_voce ⟨"x", none, some 300, some "mq", some 800⟩ = 240000 ∧
    calcola_totale_voce ⟨"x", none, some 100, some "mq", some 10000⟩ = round2 (10000 * 100) ∧
    calcola_totale_voce ⟨"x", none, some 10, some "mq", some 20000⟩ = round2 (20000 * 10) := by
  refine ⟨fun voce pr q hpr hq hmq hpz hcorpo => ?_, by decide, by decide, by decide, by decide⟩
  simp [calcola_totale_voce, hpr, hq, hmq, hpz, hcorpo]

/-- Witness for `mq_euristica_prezzo_totale`, with an upper-case `MQ`
unit-of-measure exercising the case-insensitive match. -/
theorem mq_euristica_prezzo_totale_witness :
    calcola_totale_voce ⟨"y", some 5, some 8, some "MQ", some 12000⟩ =
      if (12000 : ℚ) > 10000 ∧ (8 : ℚ) > 10 then round2 12000 else round2 (12000 * 8) :=
  mq_euristica_prezzo_totale.1 ⟨"y", some 5, some 8, some "MQ", some 12000⟩
    12000 8 rfl rfl (by decide) (by decide) (by decide)

/-- C3 counterexample: a line item whose unit-of-measure contains both `pz`
and `corpo`, with piece-count 2 and price 10, totals 20 (the piece rule wins),
not `round(price, 2) = 10` as the claim states for every `corpo` item. -/
theorem corpo_con_pz_prevale_il_pezzo :
    calcola_totale_voce ⟨"x", some 2, none, some "pz a corpo", some 10⟩ ≠ round2 10 := by
  decide

/-- C3 amended: a line item with a present price and a unit-of-measure
containing `corpo` totals `round(price, 2)` regardless of quantity and
piece-count, *provided* the unit-of-measure does not also contain `pz` with a
present piece-count (the piece rule precedes the lump-sum rule). -/
theorem corpo_prezzo_forfettario (voce : VocePreventivo) (pr : ℚ)
    (hpr : voce.prezzo = some pr) (hcorpo : umHas voce.um "corpo" = true)
    (hpz : umHas voce.um "pz" = false ∨ voce.pz = none) :
    calcola_totale_voce voce = round2 pr := by
  rcases hpz with h | h
  · simp [calcola_totale_voce, hpr, hcorpo, h]
  · cases humpz : umHas voce.um "pz" <;>
      simp [calcola_totale_voce, hpr, hcorpo, h, humpz]

/-- Witness for `corpo_prezzo_forfettario` at a line item with both a
quantity and a piece-count present. -/
theorem corpo_prezzo_forfettario_witness :
    calcola_totale_voce ⟨"x", some 7, some 3, some "a corpo", some 10⟩ = round2 10 :=
  corpo_prezzo_forfettario ⟨"x", some 7, some 3, some "a corpo", some 10⟩ 10
    rfl (by decide) (Or.inl (by decide))

/-- C5: each position total is exactly the sum of its line totals and the
subtotal is exactly the sum of the position totals — the aggregation adds the
already-rounded line totals with no further rounding. -/
theorem totali_come_somme :
    (∀ pos : Posizione,
      totale_posizione pos = (pos.voci.map calcola_totale_voce).sum) ∧
    (∀ p : Preventivo,
      imponibile p = (p.posizioni.map totale_posizione).sum) := by
  constructor
  · intro pos
    simpa using foldl_add_eq_sum calcola_totale_voce pos.voci 0
  · intro p
    simpa [imponibile, subtotale_merce] using
      foldl_add_eq_sum totale_posizione p.posizioni 0

/-- C4 counterexample: on a quotation with subtotal 0.05 and tax 22%, the
computed grand total `0.05 + 0.011 = 0.061` differs from the claim's
`subtotal + round(subtotal × taxPct/100, 2) = 0.06`. -/
theorem totale_finale_non_arrotonda_iva :
    totale_finale preventivoCentesimi ≠ totale_finale_spec preventivoCentesimi := by
  decide

/-- C4 amended: the grand total is the subtotal plus the *unrounded* tax
amount `subtotal × taxPct/100` (rounding happens only at display time); in
the instance with taxPct = 22 and subtotal = 100 the tax amount is 22.00 and
the grand total 122.00. -/
theorem totale_finale_senza_arrotondamento :
    (∀ p : Preventivo,
      totale_finale p = imponibile p + imponibile p * (p.iva_percentuale / 100)) ∧
    (∀ p : Preventivo, p.iva_percentuale = 22 → imponibile p = 100 →
      iva p = 22 ∧ round2 (iva p) = 22 ∧ totale_finale p = 122) := by
  constructor
  · intro p
    rfl
  · intro p h1 h2
    have hiva : iva p = 22 := by
      rw [iva, h1, h2]; norm_num
    refine ⟨hiva, ?_, ?_⟩
    · rw [hiva]; decide
    · rw [totale_finale, hiva, h2]; norm_num

/-- Witness for `totale_finale_senza_arrotondamento` on the subtotal-100
quotation. -/
theorem totale_finale_senza_arrotondamento_witness :
    iva preventivoCento = 22 ∧ round2 (iva preventivoCento) = 22 ∧
    totale_finale preventivoCento = 122 :=
  totale_finale_senza_arrotondamento.2 preventivoCento rfl (by decide)

/-- C6: for a position with exactly one line item the style list holds a
`none` placeholder instead of the position-label span, so no span over
column 0 survives, but applying the style list fails on the placeholder (the
command dispatch reads the opcode of a tuple and a `None` entry has none), so
the table construction for a single-line position raises instead of
succeeding; for `n + 2` line items the application succeeds, yielding exactly
the single-line command set with the span inserted, and the span's rows
resolve to rows `1 .. n + 2` — all line rows, totals row excluded. -/
theorem stile_span_voce_singola_fallisce :
    setStyleCommands (stile_tabella_posizione 1) =
      .error "TypeError: NoneType object is not subscriptable" ∧
    ((stile_tabella_posizione 1).filterMap id).all
      (fun c => !(c.op == "SPAN" && c.first.1 == 0)) = true ∧
    (∀ n : ℕ,
      setStyleCommands (stile_tabella_posizione (n + 2)) =
        .ok (((stile_tabella_posizione 1).filterMap id).insertIdx 10
          ⟨"SPAN", (0, 1), (0, -2), []⟩) ∧
      resolveIndex (n + 4) 1 = 1 ∧
      resolveIndex (n + 4) (-2) = (n : ℤ) + 2) := by
  refine ⟨by decide, by decide, fun n => ⟨?_, ?_, ?_⟩⟩
  · have h2 : (1 : ℕ) < n + 2 := by omega
    simp only [stile_tabella_posizione, if_pos h2]
    decide
  · norm_num [resolveIndex]
  · norm_num [resolveIndex]
    omega

/-- C8: for any logo-fetch outcome other than a status-200 success — any
exception or any non-200 status — the logo element is the centered bold
company-name fallback, the built document is identical to the one built under
any other failure, and a (non-empty) element sequence is still produced. -/
theorem logo_fallback_non_interrompe (p : Preventivo) (fetch : FetchOutcome)
    (h : fetchSuccess fetch = false) :
    logo_element p fetch = logo_fallback p ∧
    genera_pdf_elements p fetch = genera_pdf_elements p (.exn "timeout") ∧
    genera_pdf_elements p fetch ≠ [] := by
  have hlogo : logo_element p fetch = logo_fallback p := by
    cases fetch with
    | exn m => rfl
    | ok s c =>
      have hs : s ≠ 200 := by
        intro he
        subst he
        simp [fetchSuccess] at h
      simp [logo_element, hs]
  have htimeout : logo_element p (.exn "timeout") = logo_fallback p := rfl
  refine ⟨hlogo, ?_, ?_⟩
  · simp only [genera_pdf_elements, header_table, hlogo, htimeout]
  · simp [genera_pdf_elements]

/-- Witness for `logo_fallback_non_interrompe` at a 404 response on the demo
quotation. -/
theorem logo_fallback_non_interrompe_witness :
    logo_element preventivoDemo (.ok 404 []) = logo_fallback preventivoDemo ∧
    genera_pdf_elements preventivoDemo (.ok 404 []) =
      genera_pdf_elements preventivoDemo (.exn "timeout") ∧
    genera_pdf_elements preventivoDemo (.ok 404 []) ≠ [] :=
  logo_fallback_non_interrompe preventivoDemo (.ok 404 []) (by decide)

/-- The layout invariant holds for a fresh canvas. -/
theorem layoutInv_init : layoutInv initCanvas := ⟨rfl, rfl, rfl⟩

/-- Every layout event preserves the layout invariant. -/
theorem layoutInv_step (s : CanvasState) (e : LayoutEvent)
    (h : layoutInv s) : layoutInv (layoutStep s e) := by
  obtain ⟨h1, h2, h3⟩ := h
  cases e with
  | draw op => exact ⟨h1, h2, h3⟩
  | newPage =>
    refine ⟨h1, ?_, ?_⟩
    · simp [layoutStep, pnc_showPage, h2]
    · simp only [layoutStep, pnc_showPage, List.map_append, List.length_append,
        List.map_cons, List.map_nil, List.length_cons, List.length_nil, h2, h3]
      rw [List.range'_concat]
      simp [Nat.add_comm]

/-- The layout invariant holds after any layout run. -/
theorem runLayout_inv (evs : List LayoutEvent) : layoutInv (runLayout evs) := by
  have aux : ∀ (l : List LayoutEvent) (s : CanvasState), layoutInv s →
      layoutInv (l.foldl layoutStep s) := by
    intro l
    induction l with
    | nil => exact fun s h => h
    | cons e t ih => exact fun s h => ih _ (layoutInv_step s e h)
  exact aux evs initCanvas layoutInv_init

/-- Replaying the snapshot list in `save` appends, to whatever was already
emitted, exactly one page per snapshot: the snapshot's drawing code followed
by its page-number stamp. -/
theorem pnc_save_fold_emitted (pgs : List (ℕ × List DrawOp)) (st : CanvasState)
    (count : ℕ) :
    (pgs.foldl (fun st pg =>
        base_showPage (draw_page_number count { st with pageNumber := pg.1, code := pg.2 }))
      st).emitted =
    st.emitted ++ pgs.map (fun pg => pg.2 ++ stampOps pg.1 count) := by
  induction pgs generalizing st with
  | nil => simp
  | cons pg t ih =>
    rw [List.foldl_cons, ih]
    simp [base_showPage, draw_page_number]

/-- C7: page stamping is deferred.  After any layout run nothing has been
physically emitted — every page boundary only recorded a snapshot — and only
`save` emits: it produces exactly one page per recorded snapshot, each being
that snapshot's drawing code followed by the stamp `"Pagina X di N"` where
`X = i + 1` is the page's own number and `N` is the total snapshot count,
identical on every page. -/
theorem numerazione_pagine_due_passate (evs : List LayoutEvent) :
    (runLayout evs).emitted = [] ∧
    (pnc_save (runLayout evs)).emitted =
      (List.range (runLayout evs).pages.length).map
        (fun i => ((runLayout evs).pages.getD i (0, [])).2 ++
          stampOps (i + 1) (runLayout evs).pages.length) := by
  obtain ⟨h1, _h2, h3⟩ := runLayout_inv evs
  refine ⟨h1, ?_⟩
  rw [pnc_save, pnc_save_fold_emitted, h1]
  apply List.ext_getElem
  · simp
  · intro i hi1 hi2
    have hlen : i < (runLayout evs).pages.length := by simpa using hi1
    have hfst : ((runLayout evs).pages[i]).1 = 1 + i := by
      have h4 : (List.map Prod.fst (runLayout evs).pages)[i]? =
          (List.range' 1 (runLayout evs).pages.length)[i]? := by
        rw [h3]
      rw [List.getElem?_eq_getElem (by simpa using hlen),
        List.getElem?_eq_getElem (by simpa using hlen)] at h4
      simpa using h4
    simp only [List.nil_append, List.getElem_map, List.getElem_range,
      List.getD_eq_getElem _ _ hlen, hfst, Nat.add_comm 1 i]

/-- The three sequential `replace` calls act pointwise as `rchar`. -/
theorem triple_replace_eq_map (l : List Char) :
    replaceChar 'X' '.' (replaceChar '.' ',' (replaceChar ',' 'X' l)) = l.map rchar := by
  show ((l.map r1).map r2).map r3 = l.map rchar
  simp only [List.map_map]
  rfl

/-- Decimal digit characters are fixed points of `rchar`. -/
theorem rchar_digit (k : ℕ) (hk : k < 10) :
    rchar (Nat.digitChar k) = Nat.digitChar k := by
  interval_cases k <;> decide

/-- Every character produced by `natDigitsAux` is a decimal digit. -/
theorem natDigitsAux_digits (fuel : ℕ) :
    ∀ (n : ℕ) (c : Char), c ∈ natDigitsAux fuel n →
      ∃ k, k < 10 ∧ c = Nat.digitChar k := by
  induction fuel with
  | zero => intro n c hc; simp [natDigitsAux] at hc
  | succ fuel ih =>
    intro n c hc
    by_cases hn : n = 0
    · simp [natDigitsAux, hn] at hc
    · rw [natDigitsAux, if_neg hn] at hc
      rcases List.mem_append.mp hc with h | h
      · exact ih _ c h
      · exact ⟨n % 10, Nat.mod_lt _ (by norm_num), List.mem_singleton.mp h⟩

/-- Every character of a digit string is a decimal digit. -/
theorem natDigits_digits (n : ℕ) :
    ∀ c ∈ natDigits n, ∃ k, k < 10 ∧ c = Nat.digitChar k := by
  intro c hc
  by_cases hn : n = 0
  · refine ⟨0, by norm_num, ?_⟩
    simp [natDigits, hn] at hc
    rw [hc]
    decide
  · exact natDigitsAux_digits (n + 1) n c (by simpa [natDigits, hn] using hc)

/-- Both characters of the cents field are decimal digits. -/
theorem twoDigits_digits (m : ℕ) (hm : m < 100) :
    ∀ c ∈ twoDigits m, ∃ k, k < 10 ∧ c = Nat.digitChar k := by
  intro c hc
  rcases List.mem_pair.mp hc with rfl | rfl
  · exact ⟨m / 10, by omega, rfl⟩
  · exact ⟨m % 10, Nat.mod_lt _ (by norm_num), rfl⟩

/-- Mapping `rchar` fixes any list of decimal digits. -/
theorem map_rchar_fixes_digits (ds : List Char)
    (h : ∀ c ∈ ds, ∃ k, k < 10 ∧ c = Nat.digitChar k) : ds.map rchar = ds := by
  induction ds with
  | nil => rfl
  | cons c t ih =>
    obtain ⟨k, hk, rfl⟩ := h c (by simp)
    rw [List.map_cons, rchar_digit k hk, ih (fun x hx => h x (by simp [hx]))]

/-- Mapping a character function through the three-by-three grouping applies
it to the digits and to the inserted separator. -/
theorem map_group3rev (f : Char → Char) (sep : Char) :
    ∀ l : List Char, (group3rev sep l).map f = group3rev (f sep) (l.map f)
  | [] => rfl
  | [_] => rfl
  | [_, _] => rfl
  | [_, _, _] => rfl
  | a :: b :: c :: d :: rest => by
    have ih := map_group3rev f sep (d :: rest)
    simp only [List.map_cons] at ih ⊢
    simp only [group3rev, List.map_cons, ih]

/-- Mapping `rchar` turns a comma-grouped digit string into the same digit string
grouped with periods. -/
theorem map_rchar_groupDigits (ds : List Char)
    (h : ∀ c ∈ ds, ∃ k, k < 10 ∧ c = Nat.digitChar k) :
    (groupDigits ',' ds).map rchar = groupDigits '.' ds := by
  unfold groupDigits
  rw [List.map_reverse, map_group3rev, List.map_reverse, map_rchar_fixes_digits ds h]
  rfl

/-- Mapping `rchar` over the sign part changes nothing. -/
theorem map_rchar_sign (b : Prop) [Decidable b] :
    (if b then ['-'] else []).map rchar = (if b then ['-'] else []) := by
  split <;> decide

/-- The source's swap-based currency formatter agrees with the direct Italian
formatter on every value. -/
theorem formatta_euro_eq (v : ℚ) : formatta_euro v = italianEuro v := by
  refine congrArg String.mk ?_
  show replaceChar 'X' '.' (replaceChar '.' ','
    (replaceChar ',' 'X' (usFormat v ++ " €".toList))) = italianEuroList v
  rw [triple_replace_eq_map]
  unfold usFormat italianEuroList
  simp only [List.map_append, List.map_cons, List.append_assoc, List.cons_append]
  rw [map_rchar_sign, map_rchar_groupDigits _ (natDigits_digits _),
    map_rchar_fixes_digits _ (twoDigits_digits _ (Nat.mod_lt _ (by norm_num))),
    show rchar '.' = ',' by decide,
    show (" €".toList.map rchar) = " €".toList by decide]

/-- C10: currency formatting is exactly the Italian convention — two
decimals, `.` for thousands, `,` for decimals, euro suffix (the source's
swap of the US convention equals the direct Italian format on every value) —
and the claim's two concrete instances hold. -/
theorem formatta_euro_convenzione_italiana :
    (∀ v : ℚ, formatta_euro v = italianEuro v) ∧
    formatta_euro 1234.5 = "1.234,50 €" ∧
    formatta_euro 0 = "0,00 €" :=
  ⟨formatta_euro_eq, by decide, by decide⟩
